import Mathlib

set_option autoImplicit false

/-!
Shallow embedding of the minion-backend scan/session workflow engine
(`minion/backend/api.py` and `minion/plugins/basic.py`), with theorems
checking the natural-language specification against the code.

Conventions of the embedding:
* Python dicts holding JSON-like configuration data become association
  lists over `JVal`.
* MongoDB collections become Lean lists; `find_one` is `List.find?`,
  `update` (which touches the first matching document) is `updateFirst`.
* `datetime.utcnow()` is threaded in as an explicit `now : Nat` parameter;
  `uuid.uuid4()` is modelled as a fresh-id counter threaded through
  creation (ids are `Nat`, allocated strictly increasing, hence unique).
* Fallible code (Python `KeyError`) returns `Except`.
-/

/-- JSON-like value: an atom (string/number rendered as a string) or a
nested object.  Configurations in api.py are JSON objects. -/
inductive JVal where
  | prim : String → JVal
  | obj : List (String × JVal) → JVal
deriving Repr

/-- A configuration dictionary: ordered association list of keys to values,
as a Python dict with insertion order. -/
abbrev Config := List (String × JVal)

/-- Lookup of a key in a configuration (Python `d[k]` / `d.get(k)`). -/
def lookupCfg (d : Config) (k : String) : Option JVal :=
  match d.find? (fun p => p.1 = k) with
  | some p => some p.2
  | none => none

/-- Python `d[k] = v`: replace the value in place when the key is present
(keeping its position), otherwise append the binding. -/
def setKey (d : Config) (k : String) (v : JVal) : Config :=
  if d.any (fun p => p.1 = k) then
    d.map (fun p => if p.1 = k then (k, v) else p)
  else
    d ++ [(k, v)]

/-- Python `d.update(other)` (api.py line 656): for each key of `other` in
order, set it in `d`.  This is a SHALLOW merge: a top-level key of `other`
replaces the whole value, nested objects are not merged. -/
def dictUpdate (d other : Config) : Config :=
  other.foldl (fun acc p => setKey acc p.1 p.2) d

mutual
/-- Deep (recursive) merge of two values as the spec describes it, for the
refinement comparison with `dictUpdate`: when both sides are objects the
objects are merged key by key, otherwise the request value wins. -/
def deepMergeVal : JVal → JVal → JVal
  | JVal.obj bo, JVal.obj ro => JVal.obj (deepMergeObj bo ro)
  | _, r => r

/-- Deep merge of two objects as the spec describes it: keys only in the
base are kept, keys in the request are merged recursively into the base
(request wins on conflicting non-object values, including nested keys). -/
def deepMergeObj : List (String × JVal) → List (String × JVal) → List (String × JVal)
  | bo, [] => bo
  | bo, (k, v) :: rest =>
    match lookupCfg bo k with
    | some bv => deepMergeObj (setKey bo k (deepMergeVal bv v)) rest
    | none => deepMergeObj (bo ++ [(k, v)]) rest
end

/-!
## Data model (api.py document shapes)

Timestamps are `Option Nat` (`None` or a UTC instant); ids are `Nat`
(allocated by a fresh-id counter standing for `uuid.uuid4()`).
-/

/-- One finding reported by a plugin, as stored in a session's `issues`
list.  Only the fields the backend reads are kept (`Severity`,
`Summary`, `Code`, `Description`). -/
structure Issue where
  code : String
  summary : String
  description : String
  severity : String
deriving Repr, DecidableEq

/-- Registry descriptor of a plugin (`_plugin_descriptor` in api.py):
`{class, name, version, weight}`. -/
structure PluginDescriptor where
  clazz : String
  name : String
  version : String
  weight : String
deriving Repr, DecidableEq

/-- One step of a stored plan's workflow: `{plugin_name, configuration,
description}`. -/
structure Step where
  plugin_name : String
  configuration : Config
  description : String
deriving Repr

/-- A stored plan document: `{name, description, workflow}`. -/
structure Plan where
  name : String
  description : String
  workflow : List Step
deriving Repr

/-- A session document as built by `put_scan_create`. -/
structure Session where
  id : Nat
  state : String
  plugin : PluginDescriptor
  configuration : Config
  description : String
  artifacts : List (String × String)
  issues : List Issue
  created : Option Nat
  queued : Option Nat
  started : Option Nat
  finished : Option Nat
  progress : Option Nat
deriving Repr

/-- A scan document as built by `put_scan_create`:
plan snapshot is `{name, revision}`; meta is `{owner, tags}`. -/
structure Scan where
  id : Nat
  state : String
  created : Option Nat
  queued : Option Nat
  started : Option Nat
  finished : Option Nat
  planName : String
  planRevision : Nat
  configuration : Config
  sessions : List Session
  metaOwner : Option String
  metaTags : List String
deriving Repr

/-- A JSON response from the API: `success` plus the optional `reason`
and `error` fields (absent fields are `none`). -/
structure ApiResponse where
  success : Bool
  reason : Option String := none
  error : Option String := none
deriving Repr, DecidableEq

/-!
## Store lookups (MongoDB collections as lists)
-/

/-- `plans.find_one({"name": name})`: first plan with the given name. -/
def findPlan (plansDb : List Plan) (name : String) : Option Plan :=
  plansDb.find? (fun p => p.name = name)

/-- `scans.find_one({"id": scan_id})`: first scan with the given id. -/
def findScan (scansDb : List Scan) (id : Nat) : Option Scan :=
  scansDb.find? (fun s => s.id = id)

/-- `scans.update({"id": id}, {"$set": ...})`: apply `f` to the first
scan with the given id, leaving the rest of the collection unchanged. -/
def updateFirst (scansDb : List Scan) (id : Nat) (f : Scan → Scan) : List Scan :=
  match scansDb with
  | [] => []
  | s :: rest =>
    if s.id = id then f s :: rest else s :: updateFirst rest id f

/-- Lookup of a plugin class name in the registry (`plugins.get(name)` /
`plugins[name]`), yielding its descriptor. -/
def lookupReg (registry : List (String × PluginDescriptor)) (name : String) :
    Option PluginDescriptor :=
  match registry.find? (fun p => p.1 = name) with
  | some p => some p.2
  | none => none

/-!
## Issue aggregation: `summarize_scan` (api.py lines 143-167)
-/

/-- The four client-facing severity buckets of a scan summary. -/
structure IssueCounts where
  high : Nat
  low : Nat
  medium : Nat
  info : Nat
deriving Repr, DecidableEq

/-- One entry of the summary's `sessions` list: `{plugin, id, state}`. -/
structure SessionSummary where
  plugin : PluginDescriptor
  id : Nat
  state : String
deriving Repr, DecidableEq

/-- The scan summary document produced by `summarize_scan`. -/
structure ScanSummary where
  id : Nat
  state : String
  configuration : Config
  planName : String
  planRevision : Nat
  sessions : List SessionSummary
  created : Option Nat
  queued : Option Nat
  finished : Option Nat
  issues : IssueCounts
deriving Repr

/-- `_count_issues(scan, severity)` in api.py: a counter loop over every
session's issue list, incremented when `issue['Severity'] == severity`. -/
def count_issues (scan : Scan) (severity : String) : Nat :=
  scan.sessions.foldl
    (fun count session =>
      session.issues.foldl
        (fun c issue => if issue.severity = severity then c + 1 else c)
        count)
    0

/-- `summarize_scan(scan)` in api.py: projection of the scan plus the
four recomputed severity buckets (`High`, `Low`, `Medium`, `Info`).
`Fatal` has no bucket. -/
def summarize_scan (scan : Scan) : ScanSummary :=
  { id := scan.id
    state := scan.state
    configuration := scan.configuration
    planName := scan.planName
    planRevision := scan.planRevision
    sessions := scan.sessions.map
      (fun s => { plugin := s.plugin, id := s.id, state := s.state })
    created := scan.created
    queued := scan.queued
    finished := scan.finished
    issues := { high := count_issues scan "High"
                low := count_issues scan "Low"
                medium := count_issues scan "Medium"
                info := count_issues scan "Info" } }

/-- Specification-level severity count, independent of the loop in
`count_issues`: the length of the filter of all the scan's issues. -/
def countSevSpec (scan : Scan) (severity : String) : Nat :=
  ((scan.sessions.map Session.issues).flatten.filter
    (fun i => i.severity = severity)).length

/-- Append one issue to the `k`-th session's issue list (a mutation of
the stored scan, used to state that summaries are recomputed). -/
def addIssueToSessions : List Session → Nat → Issue → List Session
  | [], _, _ => []
  | s :: rest, 0, i => { s with issues := s.issues ++ [i] } :: rest
  | s :: rest, Nat.succ k, i => s :: addIssueToSessions rest k i

/-- The scan after appending issue `i` to its `k`-th session. -/
def addIssue (scan : Scan) (k : Nat) (i : Issue) : Scan :=
  { scan with sessions := addIssueToSessions scan.sessions k i }

/-!
## Scan creation: `put_scan_create` (api.py lines 633-671)
-/

/-- The session built for one workflow step (api.py lines 654-669):
configuration is the step's base configuration shallow-updated with the
request configuration (`dict.update`), the plugin descriptor is looked
up by `plugins[step['plugin_name']]`. -/
def mkSession (desc : PluginDescriptor) (step : Step) (reqCfg : Config)
    (now : Nat) (id : Nat) : Session :=
  { id := id
    state := "CREATED"
    plugin := desc
    configuration := dictUpdate step.configuration reqCfg
    description := step.description
    artifacts := []
    issues := []
    created := some now
    queued := none
    started := none
    finished := none
    progress := none }

/-- The session-building loop of `put_scan_create`: one session per
workflow step, in order, with ids allocated consecutively from `nextId`.
`plugins[step['plugin_name']]` raises `KeyError` when the plugin is not
registered, modelled as `Except.error`. -/
def buildSessions (registry : List (String × PluginDescriptor)) (reqCfg : Config)
    (now : Nat) : List Step → Nat → Except String (List Session)
  | [], _ => Except.ok []
  | step :: rest, nextId =>
    match lookupReg registry step.plugin_name with
    | none => Except.error "KeyError"
    | some desc =>
      match buildSessions registry reqCfg now rest (nextId + 1) with
      | Except.error e => Except.error e
      | Except.ok ss => Except.ok (mkSession desc step reqCfg now nextId :: ss)

/-- `put_scan_create` (POST /scans): looks up the plan by name — an
unknown plan returns bare `{success: false}` (no `reason` field) and
leaves the scan collection untouched; otherwise builds the scan with
state CREATED, `created := now`, and one session per workflow step, and
inserts it.  Returns the response, the created scan (if any) and the
new scan collection. -/
def put_scan_create (plansDb : List Plan) (scansDb : List Scan)
    (registry : List (String × PluginDescriptor)) (planName : String)
    (reqCfg : Config) (now : Nat) (freshId : Nat) :
    Except String (ApiResponse × Option Scan × List Scan) :=
  match findPlan plansDb planName with
  | none => Except.ok ({ success := false }, none, scansDb)
  | some plan =>
    match buildSessions registry reqCfg now plan.workflow (freshId + 1) with
    | Except.error e => Except.error e
    | Except.ok sessions =>
      let scan : Scan :=
        { id := freshId
          state := "CREATED"
          created := some now
          queued := none
          started := none
          finished := none
          planName := plan.name
          planRevision := 0
          configuration := reqCfg
          sessions := sessions
          metaOwner := none
          metaTags := [] }
      Except.ok ({ success := true }, some scan, scansDb ++ [scan])

/-!
## Scan control: `put_scan_control` (api.py lines 673-696)
-/

/-- `put_scan_control` (PUT /scans/id/control): no-such-scan when the id
is absent; unknown-state when the command is neither START nor STOP;
START only from state CREATED (else invalid-state-transition), setting
state QUEUED and stamping `queued`; STOP from ANY state, setting state
STOPPING and overwriting `queued`.  Returns the response and the
(possibly updated) scan collection. -/
def put_scan_control (scansDb : List Scan) (scan_id : Nat) (command : String)
    (now : Nat) : ApiResponse × List Scan :=
  match findScan scansDb scan_id with
  | none => ({ success := false, error := some "no-such-scan" }, scansDb)
  | some scan =>
    if command ≠ "START" ∧ command ≠ "STOP" then
      ({ success := false, error := some "unknown-state" }, scansDb)
    else if command = "START" then
      if scan.state ≠ "CREATED" then
        ({ success := false, error := some "invalid-state-transition" }, scansDb)
      else
        ({ success := true },
         updateFirst scansDb scan_id
           (fun s => { s with state := "QUEUED", queued := some now }))
    else
      ({ success := true },
       updateFirst scansDb scan_id
         (fun s => { s with state := "STOPPING", queued := some now }))

/-!
## Plan retrieval: `get_plan` (api.py lines 571-582)
-/

/-- A workflow step as returned by `get_plan`: the `plugin_name` field
has been removed and, when the plugin is registered, the descriptor is
embedded under `plugin` (an unregistered plugin leaves the step without
a `plugin` key, modelled as `none`). -/
structure OutStep where
  plugin : Option PluginDescriptor
  configuration : Config
  description : String
deriving Repr

/-- A plan as returned by `get_plan`. -/
structure OutPlan where
  name : String
  description : String
  workflow : List OutStep
deriving Repr

/-- Result of `get_plan`: `{success: false}` when the plan name is
absent, otherwise the plan with each step's descriptor filled in. -/
inductive GetPlanResult where
  | notFound : GetPlanResult
  | found : OutPlan → GetPlanResult
deriving Repr

/-- `get_plan` (GET /plans/name): looks up the plan; for each workflow
step, `plugins.get(step['plugin_name'])` — the descriptor is embedded
only `if plugin:`, and `plugin_name` is deleted unconditionally.  An
unknown plugin name is silently skipped, never an error. -/
def get_plan (plansDb : List Plan) (registry : List (String × PluginDescriptor))
    (plan_name : String) : GetPlanResult :=
  match findPlan plansDb plan_name with
  | none => GetPlanResult.notFound
  | some plan =>
    GetPlanResult.found
      { name := plan.name
        description := plan.description
        workflow := plan.workflow.map
          (fun step =>
            { plugin := lookupReg registry step.plugin_name
              configuration := step.configuration
              description := step.description }) }

/-!
## Status report: `get_reports_sites` (api.py lines 477-497)
-/

/-- A stored user document (only the field the report reads). -/
structure User where
  email : String
deriving Repr

/-- A stored group document: name, member sites and member users. -/
structure UserGroup where
  name : String
  sites : List String
  users : List String
deriving Repr

/-- A stored site document: url and attached plan names. -/
structure Site where
  url : String
  plans : List String
deriving Repr

/-- One entry of the status report: `{target, plan, scan}` where `scan`
is the summary of the most recent matching scan, or `None`. -/
structure ReportEntry where
  target : String
  plan : String
  scan : Option ScanSummary
deriving Repr

/-- The JSON answer of GET /reports/status. -/
structure StatusReportResponse where
  success : Bool
  reason : Option String := none
  report : List ReportEntry := []
deriving Repr

/-- Insert a string into an ascending list (helper for Python
`sorted`). -/
def insertSorted (x : String) : List String → List String
  | [] => [x]
  | y :: ys => if x ≤ y then x :: y :: ys else y :: insertSorted x ys

/-- Python `sorted` on a list of strings (insertion sort). -/
def sortStrings : List String → List String
  | [] => []
  | x :: xs => insertSorted x (sortStrings xs)

/-- `_find_sites_for_user(email)`: the set of sites of every group the
user belongs to (a Python set, returned as a deduplicated list). -/
def find_sites_for_user (groupsDb : List UserGroup) (email : String) : List String :=
  (((groupsDb.filter (fun g => g.users.contains email)).map UserGroup.sites).flatten).eraseDups

/-- `sites.find_one({'url': url})`. -/
def findSite (sitesDb : List Site) (url : String) : Option Site :=
  sitesDb.find? (fun s => s.url = url)

/-- The target of a scan's merged configuration, when it is a string. -/
def targetOf (cfg : Config) : Option String :=
  match lookupCfg cfg "target" with
  | some (JVal.prim t) => some t
  | _ => none

/-- `scans.find({'configuration.target': target, 'plan.name': plan})
.sort("created", -1).limit(1)`: the matching scan with the greatest
`created` timestamp (the first such scan on ties). -/
def latestScan (scansDb : List Scan) (target planName : String) : Option Scan :=
  (scansDb.filter
      (fun s => targetOf s.configuration = some target ∧ s.planName = planName)).foldl
    (fun best s =>
      match best with
      | none => some s
      | some b => if b.created.getD 0 < s.created.getD 0 then some s else some b)
    none

/-- The per-site/per-plan entries built by the user branch of
`get_reports_sites`. -/
def statusEntriesFor (sitesDb : List Site) (scansDb : List Scan)
    (site_url : String) : List ReportEntry :=
  match findSite sitesDb site_url with
  | none => []
  | some site =>
    site.plans.map
      (fun plan_name =>
        { target := site_url
          plan := plan_name
          scan := (latestScan scansDb site_url plan_name).map summarize_scan })

/-- `get_reports_sites` (GET /reports/status): with no `user` query
parameter the loop body never runs and the report is empty; with a
`user`, an unknown email fails with no-such-user, otherwise one entry
per (site visible to the user, attached plan) with the latest matching
scan summarized. -/
def get_reports_sites (usersDb : List User) (groupsDb : List UserGroup)
    (sitesDb : List Site) (scansDb : List Scan) (user_email : Option String) :
    StatusReportResponse :=
  match user_email with
  | none => { success := true, report := [] }
  | some email =>
    match usersDb.find? (fun u => u.email = email) with
    | none => { success := false, reason := some "no-such-user" }
    | some _ =>
      { success := true
        report :=
          ((sortStrings (find_sites_for_user groupsDb email)).map
            (statusEntriesFor sitesDb scansDb)).flatten }

/-!
## Plugin contract and execution (basic.py + spec §4.1/§4.5)

`minion/plugins/basic.py` is under src; the plugin base class
(`minion.plugins.base`), the HTTP helper `minion.curly` and the
Execution Scheduler (`scan_worker`/`state_worker`) are code of this
repository that is not under src, so those parts are modelled from the
spec as marked below.
-/

/-- Outcome of `minion.curly.get(target)`: either the connection fails
(`CurlyError`) or a response with a status code and headers arrives. -/
inductive HttpOutcome where
  | unreachable : HttpOutcome
  | response : Nat → List (String × String) → HttpOutcome

/-- The HTTP world: what fetching each target yields. -/
abbrev HttpEnv := String → HttpOutcome

/-- Modelled from the spec: the plugin return contract of §4.1 — exactly
one of normal completion with issues, an ABORT signal (no further plan
steps may run), or an execution error (`minion.plugins.base` 's
`EXIT_STATE_*` constants are not under src). -/
inductive ExitState where
  | completed : ExitState
  | aborted : ExitState
  | failed : ExitState
deriving Repr, DecidableEq

/-- The issue of `REPORTS['good']` in `AlivePlugin`, formatted with the
response status code: severity Info. -/
def aliveGoodIssue (status : Nat) : Issue :=
  { code := "ALIVE-0"
    summary := "Site is reachable"
    description := "The server has responded with " ++ toString status ++
      " status_code. This indicates the site is reachable."
    severity := "Info" }

/-- The issue of `REPORTS['bad']` in `AlivePlugin`, with the description
replaced by `str(error)`: severity Fatal. -/
def aliveBadIssue (errText : String) : Issue :=
  { code := "ALIVE-1"
    summary := "Site could not be reached"
    description := errText
    severity := "Fatal" }

/-- Modelled from the spec: `minion.curly` is not under src; per §7 an
unreachable target is a plugin execution error carried as a descriptive
issue (`CurlyError.issue`), and per the `AlivePlugin` docstring any
error is fatal, so the carried issue has severity Fatal. -/
def curlyErrorIssue : Issue :=
  { code := "ALIVE-1"
    summary := "Site could not be reached"
    description := "Connection to the target failed"
    severity := "Fatal" }

/-- `AlivePlugin.do_run` (basic.py lines 62-74) over an HTTP outcome:
a connection error reports `CurlyError.issue` and returns
EXIT_STATE_ABORTED; `raise_for_status` on a non-200 response raises
`BadResponseError`, reporting the formatted `bad` (Fatal) issue and
returning EXIT_STATE_ABORTED; a 200 response reports the `good` (Info)
issue and completes normally. -/
def alive_do_run (outcome : HttpOutcome) : List Issue × ExitState :=
  match outcome with
  | HttpOutcome.unreachable => ([curlyErrorIssue], ExitState.aborted)
  | HttpOutcome.response status _ =>
    if status = 200 then
      ([aliveGoodIssue status], ExitState.completed)
    else
      ([aliveBadIssue ("Received a " ++ toString status ++ " response")],
       ExitState.aborted)

/-- The registry key of `AlivePlugin` (api.py BUILTIN_PLUGINS). -/
def aliveCls : String := "minion.plugins.basic.AlivePlugin"

/-- The registry key of `XFrameOptionsPlugin` (api.py BUILTIN_PLUGINS). -/
def xfoCls : String := "minion.plugins.basic.XFrameOptionsPlugin"

/-- The registry descriptor of `AlivePlugin`: PLUGIN_NAME "Alive",
PLUGIN_WEIGHT "light" from basic.py; the version string comes from the
plugin base class, which is not under src, so its value is opaque here. -/
def aliveDescriptor : PluginDescriptor :=
  { clazz := aliveCls, name := "Alive", version := "0.0", weight := "light" }

/-- The registry descriptor of `XFrameOptionsPlugin`: PLUGIN_NAME
"XFrameOptions", PLUGIN_WEIGHT "light" from basic.py. -/
def xfoDescriptor : PluginDescriptor :=
  { clazz := xfoCls, name := "XFrameOptions", version := "0.0", weight := "light" }

/-- A registry holding the two basic.py plugins the theorems exercise,
keyed by class name as `_register_plugin` does. -/
def stdRegistry : List (String × PluginDescriptor) :=
  [(aliveCls, aliveDescriptor), (xfoCls, xfoDescriptor)]

/-- The two-step plan of the spec's scenario (§8): first the Alive
check, then XFrameOptions. -/
def basicPlan : Plan :=
  { name := "basic"
    description := "Basic checks"
    workflow :=
      [ { plugin_name := aliveCls, configuration := [],
          description := "Check if the site is alive" },
        { plugin_name := xfoCls, configuration := [],
          description := "Check X-Frame-Options" } ] }

/-- Dispatch one session's plugin.  `AlivePlugin` is embedded from
basic.py; every other plugin's behaviour is left abstract as the
parameter `other` (the theorems below hold for every such behaviour).
A missing or non-string `target` key makes the plugin raise, which the
Scheduler converts to an execution error (spec §4.1). -/
def runPlugin (other : String → Config → HttpEnv → List Issue × ExitState)
    (clazz : String) (cfg : Config) (http : HttpEnv) : List Issue × ExitState :=
  if clazz = aliveCls then
    match targetOf cfg with
    | some t => alive_do_run (http t)
    | none => ([], ExitState.failed)
  else
    other clazz cfg http

/-- Modelled from the spec: the Execution Scheduler (`scan_worker` /
`state_worker`) is not under src.  Per §4.5, sessions of a started scan
run strictly in plan order; a completed or failed session lets the
pipeline continue, while an ABORT halts it, leaving every remaining
session untouched (never STARTED).  Returns the updated sessions and
whether a session signalled a fatal abort. -/
def runSessionsFrom (other : String → Config → HttpEnv → List Issue × ExitState)
    (http : HttpEnv) (now : Nat) : List Session → List Session × Bool
  | [] => ([], false)
  | s :: rest =>
    match runPlugin other s.plugin.clazz s.configuration http with
    | (issues, ExitState.completed) =>
      let t := runSessionsFrom other http now rest
      ({ s with state := "FINISHED", issues := issues, queued := some now,
                started := some now, finished := some now } :: t.1, t.2)
    | (issues, ExitState.failed) =>
      let t := runSessionsFrom other http now rest
      ({ s with state := "FAILED", issues := issues, queued := some now,
                started := some now, finished := some now } :: t.1, t.2)
    | (issues, ExitState.aborted) =>
      ({ s with state := "ABORTED", issues := issues, queued := some now,
                started := some now, finished := some now } :: rest, true)

/-- Modelled from the spec: driving a queued scan to completion (§4.4,
§4.5) — the sessions run in order, and the scan ends FAILED when a
session's abort was fatal, FINISHED otherwise. -/
def runScan (other : String → Config → HttpEnv → List Issue × ExitState)
    (http : HttpEnv) (now : Nat) (scan : Scan) : Scan :=
  let t := runSessionsFrom other http now scan.sessions
  { scan with
      sessions := t.1
      state := if t.2 then "FAILED" else "FINISHED"
      started := some now
      finished := some now }

/-!
## Helper lemmas
-/

/-- Updating the first scan with a given id keeps it findable, with the
update applied, provided the update preserves the id. -/
theorem findScan_updateFirst (db : List Scan) (id : Nat) (f : Scan → Scan)
    (s : Scan) (h : findScan db id = some s) (hf : (f s).id = s.id) :
    findScan (updateFirst db id f) id = some (f s) := by
  induction db with
  | nil => simp [findScan] at h
  | cons a rest ih =>
    by_cases ha : a.id = id
    · have hs : a = s := by simpa [findScan, ha] using h
      subst hs
      simp [updateFirst, ha, findScan, hf]
    · have h' : findScan rest id = some s := by simpa [findScan, ha] using h
      simpa [updateFirst, ha, findScan] using ih h'

/-- A concrete scan sitting in state CREATED (used by witnesses). -/
def demoScan : Scan :=
  { id := 7, state := "CREATED", created := some 1, queued := none,
    started := none, finished := none, planName := "basic",
    planRevision := 0, configuration := [], sessions := [],
    metaOwner := none, metaTags := [] }

/-- A concrete scan already in the terminal state FINISHED. -/
def finishedScan : Scan :=
  { id := 7, state := "FINISHED", created := some 1, queued := some 2,
    started := some 3, finished := some 4, planName := "basic",
    planRevision := 0, configuration := [], sessions := [],
    metaOwner := none, metaTags := [] }

/-!
## C10 — status report without a user parameter
-/

/-- C10: GET /reports/status without a `user` parameter returns
`{success: true, report: []}` whatever the stores contain. -/
theorem C10_status_report_no_user (usersDb : List User)
    (groupsDb : List UserGroup) (sitesDb : List Site) (scansDb : List Scan) :
    get_reports_sites usersDb groupsDb sitesDb scansDb none =
      { success := true, reason := none, report := [] } := rfl

/-!
## C8 — control on a missing scan / unknown command
-/

/-- C8: the scan control operation answers
`{success: false, error: "no-such-scan"}` when the scan id is absent, and
`{success: false, error: "unknown-state"}` for an existing scan when the
command is neither START nor STOP; in both cases the scan collection is
returned unchanged. -/
theorem C8_control_errors (db : List Scan) (id : Nat) (cmd : String) (now : Nat) :
    (findScan db id = none →
      put_scan_control db id cmd now =
        ({ success := false, error := some "no-such-scan" }, db)) ∧
    (∀ s, findScan db id = some s → cmd ≠ "START" → cmd ≠ "STOP" →
      put_scan_control db id cmd now =
        ({ success := false, error := some "unknown-state" }, db)) := by
  constructor
  · intro h
    simp [put_scan_control, h]
  · intro s hs h1 h2
    simp [put_scan_control, hs, h1, h2]

/-- Witness for C8 at concrete inputs: an empty collection and a
collection holding `demoScan`, with the command "PAUSE". -/
theorem C8_witness :
    put_scan_control [] 0 "PAUSE" 9 =
      ({ success := false, error := some "no-such-scan" }, []) ∧
    put_scan_control [demoScan] 7 "PAUSE" 9 =
      ({ success := false, error := some "unknown-state" }, [demoScan]) :=
  ⟨(C8_control_errors [] 0 "PAUSE" 9).1 rfl,
   (C8_control_errors [demoScan] 7 "PAUSE" 9).2 demoScan rfl
     (by decide) (by decide)⟩

/-!
## C4 — START transition
-/

/-- C4: START succeeds exactly from state CREATED, moving the scan to
QUEUED and stamping `queued := now`; from any other state it answers
`invalid-state-transition` and returns the collection (hence the scan
and all its fields) unchanged. -/
theorem C4_start_transition (db : List Scan) (id now : Nat) (s : Scan)
    (h : findScan db id = some s) :
    (s.state = "CREATED" →
      (put_scan_control db id "START" now).1 = { success := true } ∧
      findScan (put_scan_control db id "START" now).2 id =
        some { s with state := "QUEUED", queued := some now }) ∧
    (s.state ≠ "CREATED" →
      put_scan_control db id "START" now =
        ({ success := false, error := some "invalid-state-transition" }, db)) := by
  constructor
  · intro hc
    constructor
    · simp [put_scan_control, h, hc]
    · have e : (put_scan_control db id "START" now).2 =
          updateFirst db id (fun x => { x with state := "QUEUED", queued := some now }) := by
        simp [put_scan_control, h, hc]
      rw [e]
      exact findScan_updateFirst db id _ s h rfl
  · intro hc
    simp [put_scan_control, h, hc]

/-- Witness for C4 at a concrete input: `demoScan` is CREATED, so START
queues it; `finishedScan` is not, so START is rejected. -/
theorem C4_witness :
    ((put_scan_control [demoScan] 7 "START" 9).1 = { success := true } ∧
     findScan (put_scan_control [demoScan] 7 "START" 9).2 7 =
       some { demoScan with state := "QUEUED", queued := some 9 }) ∧
    put_scan_control [finishedScan] 7 "START" 9 =
      ({ success := false, error := some "invalid-state-transition" }, [finishedScan]) :=
  ⟨(C4_start_transition [demoScan] 7 9 demoScan rfl).1 rfl,
   (C4_start_transition [finishedScan] 7 9 finishedScan rfl).2 (by decide)⟩

/-!
## C2 — state regression
-/

/-- C2 counterexample: a STOP command on a scan already FINISHED (a
terminal state) moves it back to the non-terminal state STOPPING and
overwrites `queued` with a time later than `finished`, so scan state DOES
regress and the timestamp order is broken. -/
theorem C2_stop_on_finished_counterexample :
    (put_scan_control [finishedScan] 7 "STOP" 20).1 = { success := true } ∧
    findScan (put_scan_control [finishedScan] 7 "STOP" 20).2 7 =
      some { finishedScan with state := "STOPPING", queued := some 20 } ∧
    ("STOPPING" ≠ "FINISHED" ∧ "STOPPING" ≠ "STOPPED" ∧ "STOPPING" ≠ "FAILED") ∧
    (finishedScan.finished = some 4 ∧ (4 : Nat) < 20) :=
  ⟨rfl, rfl, by decide, rfl, by decide⟩

/-- C2 (amended): state never regresses under reads, under START (which
is rejected from every non-CREATED state, terminal states included) and
under unknown commands — but STOP moves ANY scan, terminal or not, to
STOPPING and overwrites its `queued` timestamp with the current time. -/
theorem C2_no_regression_amended (db : List Scan) (id now : Nat)
    (cmd : String) (s : Scan) (h : findScan db id = some s) :
    ((s.state = "FINISHED" ∨ s.state = "STOPPED" ∨ s.state = "FAILED") →
      cmd ≠ "STOP" → (put_scan_control db id cmd now).2 = db) ∧
    (cmd = "STOP" →
      findScan (put_scan_control db id cmd now).2 id =
        some { s with state := "STOPPING", queued := some now }) := by
  constructor
  · intro hterm hstop
    by_cases hstart : cmd = "START"
    · subst hstart
      have hc : s.state ≠ "CREATED" := by
        rcases hterm with h1 | h1 | h1 <;> simp [h1]
      simp [put_scan_control, h, hc]
    · simp [put_scan_control, h, hstart, hstop]
  · intro hc
    subst hc
    have e : (put_scan_control db id "STOP" now).2 =
        updateFirst db id (fun x => { x with state := "STOPPING", queued := some now }) := by
      simp [put_scan_control, h]
    rw [e]
    exact findScan_updateFirst db id _ s h rfl

/-- Witness for C2 (amended) at concrete inputs: START on the FINISHED
scan leaves the collection unchanged, STOP on it yields STOPPING. -/
theorem C2_witness :
    (put_scan_control [finishedScan] 7 "START" 20).2 = [finishedScan] ∧
    findScan (put_scan_control [finishedScan] 7 "STOP" 20).2 7 =
      some { finishedScan with state := "STOPPING", queued := some 20 } :=
  ⟨(C2_no_regression_amended [finishedScan] 7 20 "START" finishedScan rfl).1
     (Or.inl rfl) (by decide),
   (C2_no_regression_amended [finishedScan] 7 20 "STOP" finishedScan rfl).2 rfl⟩

/-!
## C6 — creating a scan with an unknown plan
-/

/-- C6 counterexample: creating a scan whose plan is unknown answers the
bare `{success: false}` — the `reason` field claimed by the spec is
absent from the response. -/
theorem C6_no_reason_counterexample :
    put_scan_create [] [] [] "tickle" [] 0 0 =
      Except.ok ({ success := false, reason := none, error := none },
        none, ([] : List Scan)) ∧
    (∀ r : String,
      (match put_scan_create [] [] [] "tickle" [] 0 0 with
       | Except.ok (resp, _, _) => resp.reason
       | Except.error _ => none) ≠ some r) :=
  ⟨rfl, fun _ h => Option.noConfusion h⟩

/-- C6 (amended): creating a scan with a plan name absent from the plan
catalog returns `{success: false}` with NO reason field, creates no
scan, and leaves the stored scan collection unchanged. -/
theorem C6_unknown_plan_create (plansDb : List Plan) (scansDb : List Scan)
    (registry : List (String × PluginDescriptor)) (name : String)
    (cfg : Config) (now fid : Nat) (h : findPlan plansDb name = none) :
    put_scan_create plansDb scansDb registry name cfg now fid =
      Except.ok ({ success := false, reason := none, error := none },
        none, scansDb) := by
  simp [put_scan_create, h]

/-- Witness for C6 at a concrete input: one stored scan, unknown plan
name, collection returned as it was. -/
theorem C6_witness :
    put_scan_create [basicPlan] [demoScan] stdRegistry "nmap" [] 3 4 =
      Except.ok ({ success := false, reason := none, error := none },
        none, [demoScan]) :=
  C6_unknown_plan_create [basicPlan] [demoScan] stdRegistry "nmap" [] 3 4 rfl

/-!
## C3 — summary severity counts
-/

/-- The inner counting loop of `_count_issues` counts exactly the
matching issues of one list. -/
theorem foldl_count_eq_filter_length (issues : List Issue) (sev : String) (c : Nat) :
    issues.foldl (fun c issue => if issue.severity = sev then c + 1 else c) c =
      c + (issues.filter (fun i => i.severity = sev)).length := by
  induction issues generalizing c with
  | nil => simp
  | cons i rest ih =>
    by_cases h : i.severity = sev
    · simp [h, ih]
      omega
    · simp [h, ih]

/-- The outer loop of `_count_issues` counts exactly the matching issues
across all the sessions' concatenated issue lists. -/
theorem foldl_sessions_count (ss : List Session) (sev : String) (c : Nat) :
    ss.foldl
        (fun count session =>
          session.issues.foldl
            (fun c issue => if issue.severity = sev then c + 1 else c) count) c =
      c + (((ss.map Session.issues).flatten).filter
        (fun i => i.severity = sev)).length := by
  induction ss generalizing c with
  | nil => simp
  | cons s rest ih =>
    rw [List.foldl_cons, foldl_count_eq_filter_length, ih]
    simp [List.filter_append]
    omega

/-- `count_issues` agrees with the specification-level count. -/
theorem count_issues_eq_spec (scan : Scan) (sev : String) :
    count_issues scan sev = countSevSpec scan sev := by
  simpa [count_issues, countSevSpec] using
    foldl_sessions_count scan.sessions sev 0

/-- Appending an issue of a different severity to the `k`-th session of
a session list leaves the filtered issue count unchanged. -/
theorem addIssue_filter_length (ss : List Session) (k : Nat) (i : Issue)
    (sev : String) (h : i.severity ≠ sev) :
    ((((addIssueToSessions ss k i).map Session.issues).flatten).filter
        (fun x => x.severity = sev)).length =
      (((ss.map Session.issues).flatten).filter
        (fun x => x.severity = sev)).length := by
  induction ss generalizing k with
  | nil => cases k <;> simp [addIssueToSessions]
  | cons s rest ih =>
    cases k with
    | zero => simp [addIssueToSessions, List.filter_append, h]
    | succ k' =>
      simp only [addIssueToSessions, List.map_cons, List.flatten_cons,
        List.filter_append, List.length_append, ih k']

/-- Appending an issue of a different severity to any session leaves the
specification-level count of a severity unchanged. -/
theorem countSevSpec_addIssue_ne (scan : Scan) (k : Nat) (i : Issue)
    (sev : String) (h : i.severity ≠ sev) :
    countSevSpec (addIssue scan k i) sev = countSevSpec scan sev :=
  addIssue_filter_length scan.sessions k i sev h

/-- C3: for every scan, the four buckets of `summarize_scan` equal the
number of issues of the matching severity across all the scan's
sessions, recomputed from the live issue lists; and adding a
Fatal-severity issue anywhere leaves all four buckets unchanged (Fatal
is outside the client-facing buckets). -/
theorem C3_summary_counts (scan : Scan) :
    (summarize_scan scan).issues.high = countSevSpec scan "High" ∧
    (summarize_scan scan).issues.low = countSevSpec scan "Low" ∧
    (summarize_scan scan).issues.medium = countSevSpec scan "Medium" ∧
    (summarize_scan scan).issues.info = countSevSpec scan "Info" ∧
    (∀ (k : Nat) (i : Issue), i.severity = "Fatal" →
      (summarize_scan (addIssue scan k i)).issues = (summarize_scan scan).issues) := by
  refine ⟨count_issues_eq_spec scan "High", count_issues_eq_spec scan "Low",
    count_issues_eq_spec scan "Medium", count_issues_eq_spec scan "Info", ?_⟩
  intro k i hi
  have hcount : ∀ sev, sev ≠ "Fatal" →
      count_issues (addIssue scan k i) sev = count_issues scan sev := by
    intro sev hsev
    rw [count_issues_eq_spec, count_issues_eq_spec]
    exact countSevSpec_addIssue_ne scan k i sev (by rw [hi]; exact fun e => hsev e.symm)
  simp only [summarize_scan]
  congr 1
  · exact hcount "High" (by decide)
  · exact hcount "Low" (by decide)
  · exact hcount "Medium" (by decide)
  · exact hcount "Info" (by decide)

/-- A concrete Fatal issue, as `AlivePlugin` would report. -/
def demoFatalIssue : Issue :=
  { code := "ALIVE-1", summary := "Site could not be reached",
    description := "down", severity := "Fatal" }

/-- A concrete scan with one session holding one High issue. -/
def demoScanWithIssues : Scan :=
  { demoScan with
      sessions :=
        [ { id := 8, state := "FINISHED", plugin := aliveDescriptor,
            configuration := [], description := "s", artifacts := [],
            issues := [ { code := "XFO-2", summary := "not set",
                          description := "d", severity := "High" } ],
            created := some 1, queued := some 2, started := some 3,
            finished := some 4, progress := none } ] }

/-- Witness for C3 at a concrete input: the High bucket counts the one
High issue, and appending a Fatal issue changes no bucket. -/
theorem C3_witness :
    (summarize_scan demoScanWithIssues).issues.high =
      countSevSpec demoScanWithIssues "High" ∧
    (summarize_scan (addIssue demoScanWithIssues 0 demoFatalIssue)).issues =
      (summarize_scan demoScanWithIssues).issues :=
  ⟨(C3_summary_counts demoScanWithIssues).1,
   (C3_summary_counts demoScanWithIssues).2.2.2.2 0 demoFatalIssue rfl⟩

/-!
## Session-building lemmas for `put_scan_create`
-/

/-- When the session-building loop succeeds it yields one session per
workflow step. -/
theorem buildSessions_length (registry : List (String × PluginDescriptor))
    (reqCfg : Config) (now : Nat) :
    ∀ (steps : List Step) (n : Nat) (ss : List Session),
      buildSessions registry reqCfg now steps n = Except.ok ss →
      ss.length = steps.length := by
  intro steps
  induction steps with
  | nil => intro n ss h; cases h; rfl
  | cons step rest ih =>
    intro n ss h
    unfold buildSessions at h
    cases hl : lookupReg registry step.plugin_name with
    | none => rw [hl] at h; cases h
    | some desc =>
      rw [hl] at h
      cases hr : buildSessions registry reqCfg now rest (n + 1) with
      | error e => rw [hr] at h; cases h
      | ok ss' =>
        rw [hr] at h
        cases h
        simp [ih (n + 1) ss' hr]

/-- The ids of the sessions built from `n` are exactly `n, n+1, …`. -/
theorem buildSessions_ids (registry : List (String × PluginDescriptor))
    (reqCfg : Config) (now : Nat) :
    ∀ (steps : List Step) (n : Nat) (ss : List Session),
      buildSessions registry reqCfg now steps n = Except.ok ss →
      ss.map Session.id = List.range' n steps.length := by
  intro steps
  induction steps with
  | nil => intro n ss h; cases h; rfl
  | cons step rest ih =>
    intro n ss h
    unfold buildSessions at h
    cases hl : lookupReg registry step.plugin_name with
    | none => rw [hl] at h; cases h
    | some desc =>
      rw [hl] at h
      cases hr : buildSessions registry reqCfg now rest (n + 1) with
      | error e => rw [hr] at h; cases h
      | ok ss' =>
        rw [hr] at h
        cases h
        simp [List.range'_succ, mkSession, ih (n + 1) ss' hr]

/-- Shape of every session built by the loop: state CREATED, empty
issues and artifacts, null progress and queued/started/finished, the
`created` stamp, and an id at least `n`. -/
theorem buildSessions_mem (registry : List (String × PluginDescriptor))
    (reqCfg : Config) (now : Nat) :
    ∀ (steps : List Step) (n : Nat) (ss : List Session),
      buildSessions registry reqCfg now steps n = Except.ok ss →
      ∀ s ∈ ss, s.state = "CREATED" ∧ s.issues = [] ∧ s.artifacts = [] ∧
        s.progress = none ∧ s.created = some now ∧ s.queued = none ∧
        s.started = none ∧ s.finished = none ∧ n ≤ s.id := by
  intro steps
  induction steps with
  | nil => intro n ss h; cases h; intro s hs; cases hs
  | cons step rest ih =>
    intro n ss h
    unfold buildSessions at h
    cases hl : lookupReg registry step.plugin_name with
    | none => rw [hl] at h; cases h
    | some desc =>
      rw [hl] at h
      cases hr : buildSessions registry reqCfg now rest (n + 1) with
      | error e => rw [hr] at h; cases h
      | ok ss' =>
        rw [hr] at h
        cases h
        intro s hs
        rcases List.mem_cons.mp hs with hs | hs
        · subst hs
          refine ⟨rfl, rfl, rfl, rfl, rfl, rfl, rfl, rfl, Nat.le_refl n⟩
        · have := ih (n + 1) ss' hr s hs
          exact ⟨this.1, this.2.1, this.2.2.1, this.2.2.2.1, this.2.2.2.2.1,
            this.2.2.2.2.2.1, this.2.2.2.2.2.2.1, this.2.2.2.2.2.2.2.1,
            Nat.le_of_succ_le this.2.2.2.2.2.2.2.2⟩

/-- The `i`-th session built by the loop comes from the `i`-th workflow
step: its descriptor is the registry entry for that step's plugin, its
configuration is the step's base configuration `dict.update`-merged with
the request configuration, and its description is the step's. -/
theorem buildSessions_get (registry : List (String × PluginDescriptor))
    (reqCfg : Config) (now : Nat) :
    ∀ (steps : List Step) (n : Nat) (ss : List Session),
      buildSessions registry reqCfg now steps n = Except.ok ss →
      ∀ (i : Nat) (hi : i < steps.length) (hi' : i < ss.length),
        lookupReg registry (steps.get ⟨i, hi⟩).plugin_name =
          some (ss.get ⟨i, hi'⟩).plugin ∧
        (ss.get ⟨i, hi'⟩).configuration =
          dictUpdate (steps.get ⟨i, hi⟩).configuration reqCfg ∧
        (ss.get ⟨i, hi'⟩).description = (steps.get ⟨i, hi⟩).description := by
  intro steps
  induction steps with
  | nil => intro n ss h i hi; exact absurd hi (Nat.not_lt_zero i)
  | cons step rest ih =>
    intro n ss h i hi hi'
    unfold buildSessions at h
    cases hl : lookupReg registry step.plugin_name with
    | none => rw [hl] at h; cases h
    | some desc =>
      rw [hl] at h
      cases hr : buildSessions registry reqCfg now rest (n + 1) with
      | error e => rw [hr] at h; cases h
      | ok ss' =>
        rw [hr] at h
        cases h
        cases i with
        | zero => exact ⟨hl, rfl, rfl⟩
        | succ j =>
          exact ih (n + 1) ss' hr j (Nat.lt_of_succ_lt_succ hi)
            (Nat.lt_of_succ_lt_succ hi')

/-!
## C7 — shape of a freshly created scan
-/

/-- C7: a successfully created scan is CREATED with only the `created`
timestamp set, and each of its sessions is CREATED with empty issues
and artifacts, null progress and queued/started/finished, and an id
distinct from the scan id and from every other session id. -/
theorem C7_created_scan_shape (plansDb : List Plan) (scansDb : List Scan)
    (registry : List (String × PluginDescriptor)) (name : String)
    (reqCfg : Config) (now fid : Nat) (p : Plan) (resp : ApiResponse)
    (scan : Scan) (rest : List Scan)
    (hplan : findPlan plansDb name = some p)
    (hok : put_scan_create plansDb scansDb registry name reqCfg now fid =
      Except.ok (resp, some scan, rest)) :
    resp = { success := true } ∧
    scan.state = "CREATED" ∧ scan.created = some now ∧
    scan.queued = none ∧ scan.started = none ∧ scan.finished = none ∧
    (∀ s ∈ scan.sessions, s.state = "CREATED" ∧ s.issues = [] ∧
      s.artifacts = [] ∧ s.progress = none ∧ s.queued = none ∧
      s.started = none ∧ s.finished = none ∧ s.id ≠ scan.id) ∧
    (scan.sessions.map Session.id).Nodup := by
  unfold put_scan_create at hok
  rw [hplan] at hok
  dsimp only at hok
  split at hok
  next e heq => cases hok
  next ss hbs =>
    simp only [Except.ok.injEq, Prod.mk.injEq, Option.some.injEq] at hok
    obtain ⟨hresp, hscan, hrest⟩ := hok
    subst hresp
    subst hscan
    refine ⟨rfl, rfl, rfl, rfl, rfl, rfl, ?_, ?_⟩
    · intro s hs
      have hm := buildSessions_mem registry reqCfg now p.workflow (fid + 1) ss hbs s hs
      refine ⟨hm.1, hm.2.1, hm.2.2.1, hm.2.2.2.1, hm.2.2.2.2.2.1,
        hm.2.2.2.2.2.2.1, hm.2.2.2.2.2.2.2.1, ?_⟩
      have hid : fid + 1 ≤ s.id := hm.2.2.2.2.2.2.2.2
      show s.id ≠ fid
      omega
    · have hids := buildSessions_ids registry reqCfg now p.workflow (fid + 1) ss hbs
      show (ss.map Session.id).Nodup
      rw [hids]
      exact List.nodup_range' (fid + 1) p.workflow.length

/-- Witness for C7 at a concrete input: creating a scan from the
two-step basic plan. -/
theorem C7_witness :
    ∃ (resp : ApiResponse) (scan : Scan) (rest : List Scan),
      put_scan_create [basicPlan] [] stdRegistry "basic"
          [("target", JVal.prim "http://a")] 3 10 =
        Except.ok (resp, some scan, rest) ∧
      (resp = { success := true } ∧
       scan.state = "CREATED" ∧ scan.created = some 3 ∧
       scan.queued = none ∧ scan.started = none ∧ scan.finished = none ∧
       (∀ s ∈ scan.sessions, s.state = "CREATED" ∧ s.issues = [] ∧
         s.artifacts = [] ∧ s.progress = none ∧ s.queued = none ∧
         s.started = none ∧ s.finished = none ∧ s.id ≠ scan.id) ∧
       (scan.sessions.map Session.id).Nodup) := by
  refine ⟨_, _, _, rfl, ?_⟩
  exact C7_created_scan_shape [basicPlan] [] stdRegistry "basic"
    [("target", JVal.prim "http://a")] 3 10 basicPlan _ _ _ rfl rfl

/-!
## C1 — sessions produced by scan creation and the configuration merge
-/

/-- C1 (amended): creating a scan from an existing plan produces exactly
`len(workflow)` sessions in workflow order — the `i`-th session carries
the `i`-th step's registry descriptor and description — and each
session's configuration is the step's base configuration SHALLOW-merged
(Python `dict.update`) with the request configuration: the request wins
on conflicting top-level keys, replacing the whole value, so nested
keys of the step's base value under a conflicting top-level key are
dropped rather than deep-merged. -/
theorem C1_create_sessions (plansDb : List Plan) (scansDb : List Scan)
    (registry : List (String × PluginDescriptor)) (name : String)
    (reqCfg : Config) (now fid : Nat) (p : Plan) (resp : ApiResponse)
    (scan : Scan) (rest : List Scan)
    (hplan : findPlan plansDb name = some p)
    (hok : put_scan_create plansDb scansDb registry name reqCfg now fid =
      Except.ok (resp, some scan, rest)) :
    scan.sessions.length = p.workflow.length ∧
    ∀ (i : Nat) (hi : i < p.workflow.length) (hi' : i < scan.sessions.length),
      lookupReg registry (p.workflow.get ⟨i, hi⟩).plugin_name =
        some (scan.sessions.get ⟨i, hi'⟩).plugin ∧
      (scan.sessions.get ⟨i, hi'⟩).configuration =
        dictUpdate (p.workflow.get ⟨i, hi⟩).configuration reqCfg ∧
      (scan.sessions.get ⟨i, hi'⟩).description =
        (p.workflow.get ⟨i, hi⟩).description := by
  unfold put_scan_create at hok
  rw [hplan] at hok
  dsimp only at hok
  split at hok
  next e heq => cases hok
  next ss hbs =>
    simp only [Except.ok.injEq, Prod.mk.injEq, Option.some.injEq] at hok
    obtain ⟨hresp, hscan, hrest⟩ := hok
    subst hscan
    exact ⟨buildSessions_length registry reqCfg now p.workflow (fid + 1) ss hbs,
      buildSessions_get registry reqCfg now p.workflow (fid + 1) ss hbs⟩

/-- A plan whose single step carries a nested base configuration, to
exhibit the shallow merge. -/
def nestedPlan : Plan :=
  { name := "nested"
    description := ""
    workflow :=
      [ { plugin_name := aliveCls
          configuration :=
            [("a", JVal.obj [("x", JVal.prim "1"), ("y", JVal.prim "2")])]
          description := "step" } ] }

/-- The request configuration conflicting with `nestedPlan` on the
top-level key "a" but not on the nested key "y". -/
def nestedReq : Config := [("a", JVal.obj [("x", JVal.prim "3")])]

/-- The configurations of the sessions of a scan-creation result (empty
when creation did not hand back a scan). -/
def sessionConfigsOf (r : Except String (ApiResponse × Option Scan × List Scan)) :
    List Config :=
  match r with
  | Except.ok (_, some scan, _) => scan.sessions.map Session.configuration
  | _ => []

/-- C1 counterexample: with a nested base configuration
`{a: {x: 1, y: 2}}` and request configuration `{a: {x: 3}}`, the code
stores the shallow-merged `{a: {x: 3}}` for the session, which differs
from the deep merge `{a: {x: 3, y: 2}}` claimed by the spec: the nested
key `y` of the base is dropped. -/
theorem C1_deep_merge_counterexample :
    sessionConfigsOf (put_scan_create [nestedPlan] [] stdRegistry "nested"
        nestedReq 0 0) =
      [[("a", JVal.obj [("x", JVal.prim "3")])]] ∧
    deepMergeObj [("a", JVal.obj [("x", JVal.prim "1"), ("y", JVal.prim "2")])]
        nestedReq =
      [("a", JVal.obj [("x", JVal.prim "3"), ("y", JVal.prim "2")])] ∧
    sessionConfigsOf (put_scan_create [nestedPlan] [] stdRegistry "nested"
        nestedReq 0 0) ≠
      [deepMergeObj [("a", JVal.obj [("x", JVal.prim "1"), ("y", JVal.prim "2")])]
        nestedReq] := by
  refine ⟨rfl, rfl, ?_⟩
  have e1 : sessionConfigsOf (put_scan_create [nestedPlan] [] stdRegistry "nested"
      nestedReq 0 0) = [[("a", JVal.obj [("x", JVal.prim "3")])]] := rfl
  have e2 : deepMergeObj
      [("a", JVal.obj [("x", JVal.prim "1"), ("y", JVal.prim "2")])] nestedReq =
      [("a", JVal.obj [("x", JVal.prim "3"), ("y", JVal.prim "2")])] := rfl
  rw [e1, e2]
  simp

/-- Witness for C1 at a concrete input: the two-step basic plan with a
request configuration carrying only `target`. -/
theorem C1_witness :
    ∃ (resp : ApiResponse) (scan : Scan) (rest : List Scan),
      put_scan_create [basicPlan] [] stdRegistry "basic"
          [("target", JVal.prim "http://a")] 3 10 =
        Except.ok (resp, some scan, rest) ∧
      (scan.sessions.length = basicPlan.workflow.length ∧
       ∀ (i : Nat) (hi : i < basicPlan.workflow.length)
         (hi' : i < scan.sessions.length),
         lookupReg stdRegistry (basicPlan.workflow.get ⟨i, hi⟩).plugin_name =
           some (scan.sessions.get ⟨i, hi'⟩).plugin ∧
         (scan.sessions.get ⟨i, hi'⟩).configuration =
           dictUpdate (basicPlan.workflow.get ⟨i, hi⟩).configuration
             [("target", JVal.prim "http://a")] ∧
         (scan.sessions.get ⟨i, hi'⟩).description =
           (basicPlan.workflow.get ⟨i, hi⟩).description) := by
  refine ⟨_, _, _, rfl, ?_⟩
  exact C1_create_sessions [basicPlan] [] stdRegistry "basic"
    [("target", JVal.prim "http://a")] 3 10 basicPlan _ _ _ rfl rfl

/-!
## C5 — plan retrieval and plugin resolution
-/

/-- C5 (amended): retrieving an existing plan always succeeds; each
step's plugin identifier is resolved against the registry and the
descriptor embedded when the lookup succeeds, while a step whose plugin
identifier is NOT in the registry is returned with no embedded
descriptor — retrieval does not fail with an UnknownPlugin error.  The
`plugin_name` field is removed from every returned step. -/
theorem C5_plan_retrieval (plansDb : List Plan)
    (registry : List (String × PluginDescriptor)) (name : String) (p : Plan)
    (hplan : findPlan plansDb name = some p) :
    ∃ op : OutPlan,
      get_plan plansDb registry name = GetPlanResult.found op ∧
      op.name = p.name ∧
      op.description = p.description ∧
      op.workflow.length = p.workflow.length ∧
      ∀ (i : Nat) (hi : i < p.workflow.length) (hi' : i < op.workflow.length),
        (op.workflow.get ⟨i, hi'⟩).plugin =
          lookupReg registry (p.workflow.get ⟨i, hi⟩).plugin_name ∧
        (op.workflow.get ⟨i, hi'⟩).configuration =
          (p.workflow.get ⟨i, hi⟩).configuration ∧
        (op.workflow.get ⟨i, hi'⟩).description =
          (p.workflow.get ⟨i, hi⟩).description := by
  refine ⟨{ name := p.name, description := p.description,
            workflow := p.workflow.map (fun step =>
              { plugin := lookupReg registry step.plugin_name,
                configuration := step.configuration,
                description := step.description }) },
          by simp [get_plan, hplan], rfl, rfl, by simp, ?_⟩
  intro i hi hi'
  simp [List.get_eq_getElem]

/-- A stored plan with one step whose plugin is not registered. -/
def ghostPlan : Plan :=
  { name := "ghost"
    description := "d"
    workflow :=
      [ { plugin_name := "minion.plugins.ghost.GhostPlugin",
          configuration := [], description := "step" } ] }

/-- C5 counterexample: retrieving `ghostPlan` against the registry that
does not hold its plugin succeeds (no UnknownPlugin failure); the step
comes back with no plugin descriptor. -/
theorem C5_unknown_plugin_counterexample :
    get_plan [ghostPlan] stdRegistry "ghost" =
      GetPlanResult.found
        { name := "ghost", description := "d",
          workflow := [{ plugin := none, configuration := [],
                         description := "step" }] } ∧
    get_plan [ghostPlan] stdRegistry "ghost" ≠ GetPlanResult.notFound := by
  constructor
  · rfl
  · intro h
    rw [show get_plan [ghostPlan] stdRegistry "ghost" =
        GetPlanResult.found
          { name := "ghost", description := "d",
            workflow := [{ plugin := none, configuration := [],
                           description := "step" }] } from rfl] at h
    cases h

/-- Witness for C5 at a concrete input: the basic plan resolves both of
its steps' descriptors. -/
theorem C5_witness :
    ∃ op : OutPlan,
      get_plan [basicPlan] stdRegistry "basic" = GetPlanResult.found op ∧
      op.name = basicPlan.name ∧
      op.description = basicPlan.description ∧
      op.workflow.length = basicPlan.workflow.length ∧
      ∀ (i : Nat) (hi : i < basicPlan.workflow.length)
        (hi' : i < op.workflow.length),
        (op.workflow.get ⟨i, hi'⟩).plugin =
          lookupReg stdRegistry (basicPlan.workflow.get ⟨i, hi⟩).plugin_name ∧
        (op.workflow.get ⟨i, hi'⟩).configuration =
          (basicPlan.workflow.get ⟨i, hi⟩).configuration ∧
        (op.workflow.get ⟨i, hi'⟩).description =
          (basicPlan.workflow.get ⟨i, hi⟩).description :=
  C5_plan_retrieval [basicPlan] stdRegistry "basic" basicPlan rfl

/-!
## C9 — Alive plugin aborting the pipeline
-/

/-- When the head session's plugin signals ABORT, the scheduler marks it
ABORTED, reports the abort, and leaves every remaining session
untouched. -/
theorem runSessionsFrom_abort_head
    (other : String → Config → HttpEnv → List Issue × ExitState)
    (http : HttpEnv) (now : Nat) (s : Session) (rest : List Session)
    (issues : List Issue)
    (h : runPlugin other s.plugin.clazz s.configuration http =
      (issues, ExitState.aborted)) :
    runSessionsFrom other http now (s :: rest) =
      ({ s with state := "ABORTED", issues := issues, queued := some now,
                started := some now, finished := some now } :: rest, true) := by
  unfold runSessionsFrom
  rw [h]

/-- The target of the C9 scenario. -/
def c9target : String := "http://unreachable.example"

/-- The request configuration of the C9 scenario. -/
def c9req : Config := [("target", JVal.prim c9target)]

/-- The scan the C9 scenario creates from the two-step basic plan
(fresh ids from 1, created at time 0). -/
def c9scan : Option Scan :=
  match put_scan_create [basicPlan] [] stdRegistry "basic" c9req 0 1 with
  | Except.ok (_, s, _) => s
  | Except.error _ => none

/-- The first session of the C9 scenario's created scan, as
`put_scan_create` builds it. -/
def c9session1 : Session :=
  { id := 2, state := "CREATED", plugin := aliveDescriptor,
    configuration := c9req, description := "Check if the site is alive",
    artifacts := [], issues := [], created := some 0, queued := none,
    started := none, finished := none, progress := none }

/-- The second session of the C9 scenario's created scan. -/
def c9session2 : Session :=
  { id := 3, state := "CREATED", plugin := xfoDescriptor,
    configuration := c9req, description := "Check X-Frame-Options",
    artifacts := [], issues := [], created := some 0, queued := none,
    started := none, finished := none, progress := none }

/-- The scan `put_scan_create` builds in the C9 scenario. -/
def c9createdScan : Scan :=
  { id := 1, state := "CREATED", created := some 0, queued := none,
    started := none, finished := none, planName := "basic",
    planRevision := 0, configuration := c9req,
    sessions := [c9session1, c9session2], metaOwner := none, metaTags := [] }

/-- C9: running the created two-step scan (Alive, then XFrameOptions)
against a target the HTTP layer reports unreachable — whatever the
second plugin would do (`other` is universally quantified): the first
session ends ABORTED carrying exactly one issue, of severity Fatal; the
second session keeps state CREATED with `started` null (it never
reaches STARTED); and the scan ends FAILED. -/
theorem C9_alive_abort_pipeline
    (other : String → Config → HttpEnv → List Issue × ExitState)
    (http : HttpEnv) (h : http c9target = HttpOutcome.unreachable) :
    ∃ scan : Scan, c9scan = some scan ∧
      (runScan other http 5 scan).state = "FAILED" ∧
      (runScan other http 5 scan).sessions.map Session.state =
        ["ABORTED", "CREATED"] ∧
      (runScan other http 5 scan).sessions.map Session.issues =
        [[curlyErrorIssue], []] ∧
      curlyErrorIssue.severity = "Fatal" ∧
      (runScan other http 5 scan).sessions.map Session.started =
        [some 5, none] := by
  refine ⟨c9createdScan, rfl, ?_⟩
  have hrun : runPlugin other c9session1.plugin.clazz
      c9session1.configuration http = ([curlyErrorIssue], ExitState.aborted) := by
    show alive_do_run (http c9target) = ([curlyErrorIssue], ExitState.aborted)
    rw [h]
    rfl
  have e2 := runSessionsFrom_abort_head other http 5 c9session1 [c9session2]
    [curlyErrorIssue] hrun
  unfold runScan
  rw [show c9createdScan.sessions = [c9session1, c9session2] from rfl, e2]
  exact ⟨rfl, rfl, rfl, rfl, rfl⟩

/-- Witness for C9 at a concrete input: an HTTP world where every target
is unreachable and a second plugin that would complete with no issue. -/
theorem C9_witness :
    ∃ scan : Scan,
      c9scan = some scan ∧
      (runScan (fun _ _ _ => ([], ExitState.completed))
        (fun _ => HttpOutcome.unreachable) 5 scan).state = "FAILED" ∧
      (runScan (fun _ _ _ => ([], ExitState.completed))
        (fun _ => HttpOutcome.unreachable) 5 scan).sessions.map Session.state =
        ["ABORTED", "CREATED"] ∧
      (runScan (fun _ _ _ => ([], ExitState.completed))
        (fun _ => HttpOutcome.unreachable) 5 scan).sessions.map Session.issues =
        [[curlyErrorIssue], []] ∧
      curlyErrorIssue.severity = "Fatal" ∧
      (runScan (fun _ _ _ => ([], ExitState.completed))
        (fun _ => HttpOutcome.unreachable) 5 scan).sessions.map Session.started =
        [some 5, none] :=
  C9_alive_abort_pipeline (fun _ _ _ => ([], ExitState.completed))
    (fun _ => HttpOutcome.unreachable) rfl
